import Mathlib

/-!
Verification development for the `fastserver` repository
(`src/handler.py`), a RunPod serverless request handler for
faster-whisper transcription.

The handler is shallowly embedded:
* JSON-like request payloads become the inductive `Val`;
* Python truthiness, `dict.get`, and `x or y` become `truthy`,
  `pyGet` / `dlookup`, and `pyOr`;
* `base64.b64decode` becomes the executable `b64decodeStr`;
* `tempfile.mkstemp` and the local filesystem become the state type `FS`;
* `requests.get` is an oracle parameter `Network`;
* raised exceptions become `Except PyErr`;
* the `WhisperModel` constructor and `model.transcribe` are oracle
  parameters (`Ctor`, `ModelFn`); the module-global `_model` cache
  becomes explicit state (`LoaderState`).
-/

set_option autoImplicit false

namespace FastServer

/-- JSON-like Python values appearing in request payloads. -/
inductive Val where
  | vnull
  | vbool (b : Bool)
  | vint (n : Int)
  | vstr (s : String)
  | vlist (xs : List Val)
  | vobj (fields : List (String × Val))

/-- Python truthiness (`if x:`): `None`, `False`, `0`, `""`, `[]`, and
empty dicts are falsy; everything else is truthy. -/
def truthy : Val → Bool
  | .vnull => false
  | .vbool b => b
  | .vint n => n != 0
  | .vstr s => s != ""
  | .vlist xs => !xs.isEmpty
  | .vobj fs => !fs.isEmpty

/-- Python `x or y`: the first operand when truthy, otherwise the second. -/
def pyOr (a b : Val) : Val :=
  if truthy a then a else b

/-- First-match lookup in an association list (a Python `dict`, whose
keys are unique, so first match is the match). -/
def dlookup : List (String × Val) → String → Option Val
  | [], _ => none
  | (k, v) :: rest, key => if k = key then some v else dlookup rest key

/-- A request payload: `run` takes `event: Dict[str, Any]`. -/
abbrev Event := List (String × Val)

/-- Models `list(event.keys())`. -/
def eventKeys (event : Event) : List String :=
  event.map Prod.fst

/-- The Python exceptions this handler can raise, one constructor per
raise site. -/
inductive PyErr where
  /-- A `binascii.Error` from `base64.b64decode` on malformed input. -/
  | binasciiError
  /-- A `requests` exception: non-success HTTP status or timeout. -/
  | httpError
  /-- A `TypeError`-like failure from passing a non-string where
  `b64decode` / `requests.get` expect text, or `int()` of an
  unconvertible type. -/
  | typeError
  /-- The `ValueError("No audio provided...")` raised at the end of
  `_extract_audio_to_file`; carries the received event keys that the
  message interpolates. -/
  | noAudio (keys : List String)
  /-- A `ValueError` from `int()` on a non-numeric string. -/
  | intValueError
  /-- An `AttributeError` from calling `.get` on a non-dict. -/
  | attributeError
  /-- An exception raised by `WhisperModel(...)` and re-raised
  unchanged by `load_model` (message preserved). -/
  | ctorExc (msg : String)
  /-- The `RuntimeError("Model must be cached at ...")` that
  `load_model` raises in place of a cache miss; carries the
  `download_root` named in the message. -/
  | cacheRuntimeError (root : String)
  /-- An exception raised by `model.transcribe` (propagates unchanged). -/
  | transcribeExc (msg : String)

/-- The value of one base64 alphabet character
(`A`-`Z`, `a`-`z`, `0`-`9`, `+`, `/`). -/
def b64charVal (c : Char) : Option Nat :=
  if 'A' ≤ c ∧ c ≤ 'Z' then some (c.toNat - 65)
  else if 'a' ≤ c ∧ c ≤ 'z' then some (c.toNat - 97 + 26)
  else if '0' ≤ c ∧ c ≤ '9' then some (c.toNat - 48 + 52)
  else if c = '+' then some 62
  else if c = '/' then some 63
  else none

/-- Decodes complete base64 groups and a final short group into bytes. -/
def b64groups : List Nat → List Nat
  | a :: b :: c :: d :: rest =>
      (a * 4 + b / 16) :: ((b % 16) * 16 + c / 4) :: ((c % 4) * 64 + d) :: b64groups rest
  | [a, b, c] => [a * 4 + b / 16, (b % 16) * 16 + c / 4]
  | [a, b] => [a * 4 + b / 16]
  | _ => []

/-- Models Python `base64.b64decode` (its default lenient mode):
characters outside the alphabet are discarded, data stops at the first
`=`, and decoding fails (`binascii.Error`, "incorrect padding") when
the data-plus-padding length is not a multiple of four or the final
group holds a single data character. -/
def b64decodeStr (s : String) : Option (List Nat) :=
  let ds := (s.toList.takeWhile (fun c => c ≠ '=')).filterMap b64charVal
  let pad := (s.toList.filter (fun c => c = '=')).length
  if (ds.length + pad) % 4 ≠ 0 then none
  else if ds.length % 4 = 1 then none
  else some (b64groups ds)

/-- The local filesystem, restricted to what the handler touches:
the temporary files that exist, with `nextId` the supply of fresh
paths that `tempfile.mkstemp` draws from. -/
structure FS where
  files : List (Nat × List Nat)
  nextId : Nat

/-- Models `tempfile.mkstemp` followed by writing `data`: creates exactly one
fresh file and returns its path. -/
def mkstemp (fs : FS) (data : List Nat) : Nat × FS :=
  (fs.nextId, ⟨fs.files ++ [(fs.nextId, data)], fs.nextId + 1⟩)

/-- The network, as an oracle: what `requests.get` (with its 30 s
timeout and `raise_for_status`) yields for each URL — either the body
bytes or a failure. -/
abbrev Network := String → Except Unit (List Nat)

/-- Models `_write_temp_audio_from_base64`: decode, then `mkstemp` and write.
A decode failure raises before any file is created. -/
def writeTempAudioFromBase64 (content : Val) (fs : FS) :
    Except PyErr Nat × FS :=
  match content with
  | .vstr s =>
    match b64decodeStr s with
    | none => (.error .binasciiError, fs)
    | some data =>
      let pf := mkstemp fs data
      (.ok pf.1, pf.2)
  | _ => (.error .typeError, fs)

/-- Models `_write_temp_audio_from_url`: fetch (raising on HTTP failure),
then `mkstemp` and write. A fetch failure raises before any file is
created. -/
def writeTempAudioFromUrl (net : Network) (url : Val) (fs : FS) :
    Except PyErr Nat × FS :=
  match url with
  | .vstr u =>
    match net u with
    | .error _ => (.error .httpError, fs)
    | .ok data =>
      let pf := mkstemp fs data
      (.ok pf.1, pf.2)
  | _ => (.error .typeError, fs)

/-- Which source a payload resolved to: an inline base64 value to
decode, or a URL to fetch. (Extraction is staged: first the dispatch
on payload shape, then the chosen writer runs; in the Python code a
block that commits either returns or raises, never falls through, so
the staging preserves behaviour.) -/
inductive SourceAction where
  | decodeB64 (content : Val)
  | fetchUrl (url : Val)

/-- Block 1 of `_extract_audio_to_file`: the RunPod UI multipart shape
`event["files"]["file"]["content"]`, guarded by `isinstance` checks
and truthiness of the content. -/
def tryFilesShape (event : Event) : Option SourceAction :=
  let files := pyOr ((dlookup event "files").getD .vnull) (.vobj [])
  match files with
  | .vobj ff =>
    match dlookup ff "file" with
    | some (.vobj fe) =>
      let file_b64 := (dlookup fe "content").getD .vnull
      if truthy file_b64 then some (.decodeB64 file_b64) else none
    | _ => none
  | _ => none

/-- Block 2a of `_extract_audio_to_file`: `event["input"]["file"]`
(base64), guarded by `isinstance(input_payload, dict)` and truthiness. -/
def tryInputB64 (event : Event) : Option SourceAction :=
  let input_payload := pyOr ((dlookup event "input").getD .vnull) (.vobj [])
  match input_payload with
  | .vobj fs =>
    let file_b64 := (dlookup fs "file").getD .vnull
    if truthy file_b64 then some (.decodeB64 file_b64) else none
  | _ => none

/-- Block 2b of `_extract_audio_to_file`:
`event["input"]["file_url"] or event["input"]["audio_url"]`. -/
def tryInputUrl (event : Event) : Option SourceAction :=
  let input_payload := pyOr ((dlookup event "input").getD .vnull) (.vobj [])
  match input_payload with
  | .vobj fs =>
    let file_url :=
      pyOr ((dlookup fs "file_url").getD .vnull) ((dlookup fs "audio_url").getD .vnull)
    if truthy file_url then some (.fetchUrl file_url) else none
  | _ => none

/-- Block 3 of `_extract_audio_to_file`: top-level `event["file"]`
(the `"file" in event` membership test, then truthiness). -/
def tryTopB64 (event : Event) : Option SourceAction :=
  match dlookup event "file" with
  | some file_b64 => if truthy file_b64 then some (.decodeB64 file_b64) else none
  | none => none

/-- Block 4 of `_extract_audio_to_file`:
top-level `event["file_url"] or event["audio_url"]`. -/
def tryTopUrl (event : Event) : Option SourceAction :=
  let file_url :=
    pyOr ((dlookup event "file_url").getD .vnull) ((dlookup event "audio_url").getD .vnull)
  if truthy file_url then some (.fetchUrl file_url) else none

/-- The shape dispatch of `_extract_audio_to_file`: the four blocks in
program order, ending at the `ValueError("No audio provided...")`. -/
def extractAudioSource (event : Event) : Except PyErr SourceAction :=
  match tryFilesShape event with
  | some a => .ok a
  | none =>
    match tryInputB64 event with
    | some a => .ok a
    | none =>
      match tryInputUrl event with
      | some a => .ok a
      | none =>
        match tryTopB64 event with
        | some a => .ok a
        | none =>
          match tryTopUrl event with
          | some a => .ok a
          | none => .error (.noAudio (eventKeys event))

/-- Models `_extract_audio_to_file` in full: dispatch on the payload shape,
then run the committed writer against the filesystem. -/
def extractAudioToFile (net : Network) (event : Event) (fs : FS) :
    Except PyErr Nat × FS :=
  match extractAudioSource event with
  | .error e => (.error e, fs)
  | .ok (.decodeB64 c) => writeTempAudioFromBase64 c fs
  | .ok (.fetchUrl u) => writeTempAudioFromUrl net u fs

/-- Models `x.get(key, default)` on a Python value: returns the stored value
(or the default) when `x` is a dict, and raises `AttributeError`
otherwise — `run` reads per-request options without the `isinstance`
guard that `_extract_audio_to_file` uses. -/
def pyGet (v : Val) (key : String) (default : Val) : Except PyErr Val :=
  match v with
  | .vobj fs => .ok ((dlookup fs key).getD default)
  | _ => .error .attributeError

/-- Python `int(x)`. -/
def pyInt : Val → Except PyErr Int
  | .vint n => .ok n
  | .vbool b => .ok (if b then 1 else 0)
  | .vstr s =>
    match s.trim.toInt? with
    | some n => .ok n
    | none => .error .intValueError
  | _ => .error .typeError

/-- The environment-derived module constants of `handler.py`
(`DEFAULT_MODEL_SIZE`, `DEFAULT_COMPUTE_TYPE`, `DEFAULT_DEVICE`,
`DEFAULT_BEAM_SIZE`, `DEFAULT_LANGUAGE`, `HF_HOME`,
`WHISPER_REQUIRE_CACHED`), abstracted over the environment. -/
structure Config where
  defaultModelSize : String
  defaultComputeType : String
  defaultDevice : String
  defaultBeamSize : Int
  defaultLanguage : String
  downloadRoot : String
  requireCached : Bool

/-- The keyword arguments that `run` passes to `model.transcribe`
(besides the audio path): exactly `beam_size`, `language`, and
`condition_on_previous_text`, as at the call site. -/
structure TranscribeOpts where
  beam_size : Int
  language : Val
  condition_on_previous_text : Val

/-- The `info` object returned by `model.transcribe`, restricted to
the fields `run` reads. -/
structure TranscribeInfo where
  language : Val
  language_probability : Val

/-- One segment yielded by the model; `run` reads `start`, `end`
(embedded as `stop`; `end` is a Lean keyword) and `text`. -/
structure SegmentRec where
  start : Val
  stop : Val
  text : Val

/-- Models `model.transcribe` as an oracle: path and options in, either the
(finite, ordered) segment sequence plus info out, or an exception. -/
abbrev ModelFn := Nat → TranscribeOpts → Except String (List SegmentRec × TranscribeInfo)

/-- Lines 126–129 of `handler.py`: the per-request option overrides
merged over the process-wide defaults. -/
def requestOptions (cfg : Config) (event : Event) : Except PyErr TranscribeOpts :=
  let input_payload := pyOr ((dlookup event "input").getD .vnull) (.vobj [])
  match pyGet input_payload "language" (.vstr cfg.defaultLanguage) with
  | .error e => .error e
  | .ok lv =>
    let language := if truthy lv then lv else .vnull
    match pyGet input_payload "beam_size" (.vint cfg.defaultBeamSize) with
    | .error e => .error e
    | .ok bv =>
      match pyInt bv with
      | .error e => .error e
      | .ok beam_size =>
        match pyGet input_payload "condition_on_previous_text" (.vbool false) with
        | .error e => .error e
        | .ok cond => .ok ⟨beam_size, language, cond⟩

/-- The dict comprehension of lines 138–145: one result entry per
segment, preserving order. -/
def segToVal (s : SegmentRec) : Val :=
  .vobj [("start", s.start), ("end", s.stop), ("text", s.text)]

/-- The return value of a successful `run` (lines 147–151): a flat
mapping with keys `language`, `language_probability`, `segments`. -/
def mkRunResponse (segments : List SegmentRec) (info : TranscribeInfo) : Val :=
  .vobj [("language", info.language),
         ("language_probability", info.language_probability),
         ("segments", .vlist (segments.map segToVal))]

/-- The part of `run` after audio extraction: obtain the model
(`load_model()` outcome is the `loader` oracle), build the options,
invoke transcription, and serialize. Any failure is a raised
exception (`Except.error`); `run` has no `try`/`except`. -/
def runInner (cfg : Config) (loader : Except PyErr ModelFn) (event : Event)
    (audio_path : Nat) : Except PyErr Val :=
  match loader with
  | .error e => .error e
  | .ok model =>
    match requestOptions cfg event with
    | .error e => .error e
    | .ok opts =>
      match model audio_path opts with
      | .error msg => .error (.transcribeExc msg)
      | .ok (segments, info) => .ok (mkRunResponse segments info)

/-- Models `run(event)`, the request handler: extract the audio to a
temporary file, then transcribe. The handler neither catches
exceptions nor deletes the temporary file, so the filesystem that
extraction produced is returned unchanged on every path. -/
def run (cfg : Config) (net : Network) (loader : Except PyErr ModelFn)
    (event : Event) (fs : FS) : Except PyErr Val × FS :=
  match extractAudioToFile net event fs with
  | (.error e, fs') => (.error e, fs')
  | (.ok audio_path, fs') => (runInner cfg loader event audio_path, fs')

/-- The `WhisperModel` constructor as an oracle over the requested
`compute_type`: either a model instance or a raised exception with
its message. -/
abbrev Ctor (α : Type) := String → Except String α

/-- Does `pat` start `cs`? -/
def listStartsWith : List Char → List Char → Bool
  | [], _ => true
  | _ :: _, [] => false
  | p :: ps, c :: cs => p == c && listStartsWith ps cs

/-- Does `pat` occur somewhere in `cs`? -/
def listContains (pat : List Char) : List Char → Bool
  | [] => listStartsWith pat []
  | c :: cs => listStartsWith pat (c :: cs) || listContains pat cs

/-- ASCII lowering of one character (`str.lower` on the ASCII
exception messages at issue). -/
def lowerChar (c : Char) : Char :=
  if 'A' ≤ c ∧ c ≤ 'Z' then Char.ofNat (c.toNat + 32) else c

/-- Python `pat in s.lower()`: substring test on the lowered text. -/
def strContains (s pat : String) : Bool :=
  listContains pat.toList (s.toList.map lowerChar)

/-- The `except` branch of `load_model` (lines 40–50): CUDA/GPU/device
messages re-raise unchanged; otherwise, under `require_cached`, a
message mentioning "local" is replaced by the cache `RuntimeError`;
everything else re-raises unchanged. -/
def handleCtorExc (requireCached : Bool) (root : String) (msg : String) : PyErr :=
  if strContains msg "cuda" || strContains msg "gpu"
      || strContains msg "device" then
    .ctorExc msg
  else if requireCached && strContains msg "local" then
    .cacheRuntimeError root
  else
    .ctorExc msg

/-- The module-global `_model` cell, plus an instrumentation counter
of how many times the `WhisperModel` constructor has been invoked. -/
structure LoaderState (α : Type) where
  cached : Option α
  ctorCalls : Nat

/-- One call to `load_model()`: return the cached instance if the
global is set; otherwise invoke the constructor once at the configured
compute type, caching on success and dispatching the exception through
the `except` branch on failure. -/
def load_model {α : Type} (cfg : Config) (ctor : Ctor α) (st : LoaderState α) :
    Except PyErr α × LoaderState α :=
  match st.cached with
  | some m => (.ok m, st)
  | none =>
    match ctor cfg.defaultComputeType with
    | .ok m => (.ok m, ⟨some m, st.ctorCalls + 1⟩)
    | .error msg =>
      (.error (handleCtorExc cfg.requireCached cfg.downloadRoot msg),
       ⟨none, st.ctorCalls + 1⟩)

/-- Performs `n` successive calls to `load_model()` in one process, collecting
each call's result and threading the global state. -/
def loadModelCalls {α : Type} (cfg : Config) (ctor : Ctor α) :
    Nat → LoaderState α → List (Except PyErr α) × LoaderState α
  | 0, st => ([], st)
  | n + 1, st =>
    let rs := load_model cfg ctor st
    let rest := loadModelCalls cfg ctor n rs.2
    (rs.1 :: rest.1, rest.2)

/-! ### Spec-side definitions

`specResolve` renders the specification's resolution order in its own
words ("priority order when multiple shapes are present: upload-structure
content first, then `input.file`, then `input.file_url`/`audio_url`,
then legacy top-level fields"): an ordered list of candidate paths,
each yielding its value when present and non-empty, first match wins.
It exists to be compared against `extractAudioSource`. -/

/-- The fields of a value when it is a mapping. -/
def asObjFields : Val → Option (List (String × Val))
  | .vobj fs => some fs
  | _ => none

/-- A present value counts only when non-empty (truthy). -/
def truthyOpt (v : Val) : Option Val :=
  if truthy v then some v else none

/-- Spec candidate 1: `files.file.content` (base64). -/
def specCandFilesContent (event : Event) : Option Val :=
  match asObjFields ((dlookup event "files").getD .vnull) with
  | none => none
  | some ff =>
    match dlookup ff "file" with
    | none => none
    | some fe =>
      match asObjFields fe with
      | none => none
      | some fo =>
        match dlookup fo "content" with
        | none => none
        | some c => truthyOpt c

/-- The `input` sub-mapping, when `input` is present and a mapping. -/
def specInputObj (event : Event) : Option (List (String × Val)) :=
  asObjFields ((dlookup event "input").getD .vnull)

/-- Spec candidate 2: `input.file` (base64). -/
def specCandInputFile (event : Event) : Option Val :=
  match specInputObj event with
  | none => none
  | some io => (dlookup io "file").bind truthyOpt

/-- Spec candidate 3: `input.file_url`, else `input.audio_url`. -/
def specCandInputUrl (event : Event) : Option Val :=
  match specInputObj event with
  | none => none
  | some io =>
    match (dlookup io "file_url").bind truthyOpt with
    | some u => some u
    | none => (dlookup io "audio_url").bind truthyOpt

/-- Spec candidate 4: legacy top-level `file` (base64). -/
def specCandFile (event : Event) : Option Val :=
  (dlookup event "file").bind truthyOpt

/-- Spec candidate 5: legacy top-level `file_url`, else `audio_url`. -/
def specCandUrl (event : Event) : Option Val :=
  match (dlookup event "file_url").bind truthyOpt with
  | some u => some u
  | none => (dlookup event "audio_url").bind truthyOpt

/-- The specification's resolver: the five candidates in the
documented priority order, first match wins. -/
def specResolve (event : Event) : Option SourceAction :=
  match specCandFilesContent event with
  | some c => some (.decodeB64 c)
  | none =>
    match specCandInputFile event with
    | some c => some (.decodeB64 c)
    | none =>
      match specCandInputUrl event with
      | some u => some (.fetchUrl u)
      | none =>
        match specCandFile event with
        | some c => some (.decodeB64 c)
        | none => (specCandUrl event).map .fetchUrl

/-- Does a value look like one serialized segment, i.e. a mapping with
exactly the keys `start`, `end`, `text` in that order? -/
def segShape : Val → Bool
  | .vobj [("start", _), ("end", _), ("text", _)] => true
  | _ => false

/-- Does a value look like the flat success payload `run` builds:
a mapping with exactly the keys `language`, `language_probability`,
`segments` (a list of segment mappings) — in particular with no
`status` or `result` wrapper and no `task` or `duration` field? -/
def successShape : Val → Bool
  | .vobj [("language", _), ("language_probability", _), ("segments", .vlist segs)] =>
    segs.all segShape
  | _ => false

/-- Field lookup inside a successful handler result (`none` when the
request failed or the result is not a mapping or lacks the key). -/
def respLookup : Except PyErr Val → String → Option Val
  | .ok (.vobj fields), key => dlookup fields key
  | _, _ => none

/-- The class of requests the specification calls "language omitted or
empty": the effective `input` payload is a mapping whose `language`
key is absent or maps to the empty string. -/
def languageOmittedOrEmpty (event : Event) : Bool :=
  match pyOr ((dlookup event "input").getD .vnull) (.vobj []) with
  | .vobj fields =>
    match dlookup fields "language" with
    | none => true
    | some (.vstr s) => s == ""
    | some _ => false
  | _ => false

/-! ### Concrete fixtures used by witnesses and counterexamples -/

/-- Fixture: the configuration from the documented environment
defaults (`turbo`, `float16`, `cuda`, beam 5, empty default language,
`/app/models`, `WHISPER_REQUIRE_CACHED=1`). -/
def cfg0 : Config := ⟨"turbo", "float16", "cuda", 5, "", "/app/models", true⟩

/-- Fixture: a network on which every URL fetch succeeds with a
two-byte body. -/
def net0 : Network := fun _ => .ok [1, 2]

/-- Fixture: an initially empty filesystem. -/
def fs0 : FS := ⟨[], 0⟩

/-- Fixture: a model that yields one segment `(0, 1, "hello")` and
detects language `en`. -/
def modelFn0 : ModelFn := fun _ _ =>
  .ok ([⟨.vint 0, .vint 1, .vstr "hello"⟩], ⟨.vstr "en", .vint 1⟩)

/-- Fixture: a loader whose model construction already succeeded. -/
def loader0 : Except PyErr ModelFn := .ok modelFn0

/-- Fixture: a constructor that rejects the `float16` precision but
would succeed at any other (fallback) precision. -/
def ctorPrec : Ctor Nat := fun ct =>
  if ct = "float16" then .error "float16 compute type is not supported" else .ok 1

/-- Fixture: a constructor that always fails with a CUDA error. -/
def ctorCuda : Ctor Nat := fun _ => .error "CUDA driver initialization failed"

/-- Fixture: a constructor succeeding at `float16` with instance 5,
at anything else with instance 6. -/
def ctorA : Ctor Nat := fun ct => if ct = "float16" then .ok 5 else .ok 6

/-- Fixture: a constructor succeeding everywhere with instance 5;
agrees with `ctorA` exactly at the configured `float16`. -/
def ctorA2 : Ctor Nat := fun _ => .ok 5

/-- Fixture: a constructor that always succeeds with instance 7. -/
def ctorOk7 : Ctor Nat := fun _ => .ok 7

/-! ### Block-by-block agreement of the code resolver with the
specification resolver -/
theorem tryFilesShape_eq (event : Event) :
    tryFilesShape event = (specCandFilesContent event).map SourceAction.decodeB64 := by
  unfold tryFilesShape specCandFilesContent
  generalize (dlookup event "files").getD Val.vnull = v
  cases v with
  | vnull => rfl
  | vbool b => cases b <;> rfl
  | vint n =>
    cases h : truthy (Val.vint n) <;> simp only [pyOr, h, Bool.false_eq_true, ite_false, ite_true] <;> rfl
  | vstr s =>
    cases h : truthy (Val.vstr s) <;> simp only [pyOr, h, Bool.false_eq_true, ite_false, ite_true] <;> rfl
  | vlist xs =>
    cases h : truthy (Val.vlist xs) <;> simp only [pyOr, h, Bool.false_eq_true, ite_false, ite_true] <;> rfl
  | vobj ff =>
    cases ff with
    | nil => rfl
    | cons hd tl =>
      have ht : truthy (Val.vobj (hd :: tl)) = true := rfl
      simp only [pyOr, ht, if_true, asObjFields]
      cases hf : dlookup (hd :: tl) "file" with
      | none => rfl
      | some fe =>
        cases fe with
        | vobj fo =>
          simp only [asObjFields]
          cases hc : dlookup fo "content" with
          | none => rfl
          | some c =>
            simp only [Option.getD, truthyOpt]
            cases htc : truthy c <;> simp [htc]
        | vnull => rfl
        | vbool b => rfl
        | vint n => rfl
        | vstr s => rfl
        | vlist xs => rfl

theorem tryInputB64_eq (event : Event) :
    tryInputB64 event = (specCandInputFile event).map SourceAction.decodeB64 := by
  unfold tryInputB64 specCandInputFile specInputObj
  generalize (dlookup event "input").getD Val.vnull = v
  cases v with
  | vnull => rfl
  | vbool b => cases b <;> rfl
  | vint n =>
    cases h : truthy (Val.vint n) <;> simp only [pyOr, h, Bool.false_eq_true, ite_false, ite_true] <;> rfl
  | vstr s =>
    cases h : truthy (Val.vstr s) <;> simp only [pyOr, h, Bool.false_eq_true, ite_false, ite_true] <;> rfl
  | vlist xs =>
    cases h : truthy (Val.vlist xs) <;> simp only [pyOr, h, Bool.false_eq_true, ite_false, ite_true] <;> rfl
  | vobj fs =>
    cases fs with
    | nil => rfl
    | cons hd tl =>
      have ht : truthy (Val.vobj (hd :: tl)) = true := rfl
      simp only [pyOr, ht, if_true, asObjFields]
      cases hf : dlookup (hd :: tl) "file" with
      | none => rfl
      | some c =>
        simp only [Option.getD, Option.bind, truthyOpt]
        cases htc : truthy c <;> simp [htc]

theorem tryInputUrl_eq (event : Event) :
    tryInputUrl event = (specCandInputUrl event).map SourceAction.fetchUrl := by
  unfold tryInputUrl specCandInputUrl specInputObj
  generalize (dlookup event "input").getD Val.vnull = v
  cases v with
  | vnull => rfl
  | vbool b => cases b <;> rfl
  | vint n =>
    cases h : truthy (Val.vint n) <;> simp only [pyOr, h, Bool.false_eq_true, ite_false, ite_true] <;> rfl
  | vstr s =>
    cases h : truthy (Val.vstr s) <;> simp only [pyOr, h, Bool.false_eq_true, ite_false, ite_true] <;> rfl
  | vlist xs =>
    cases h : truthy (Val.vlist xs) <;> simp only [pyOr, h, Bool.false_eq_true, ite_false, ite_true] <;> rfl
  | vobj fs =>
    cases fs with
    | nil => rfl
    | cons hd tl =>
      have ht : truthy (Val.vobj (hd :: tl)) = true := rfl
      have hn : truthy Val.vnull = false := rfl
      simp only [pyOr, ht, if_true, asObjFields]
      cases hf : dlookup (hd :: tl) "file_url" with
      | none =>
        simp only [Option.getD, Option.bind, hn, Bool.false_eq_true, ite_false]
        cases ha : dlookup (hd :: tl) "audio_url" with
        | none => simp [hn]
        | some u =>
          cases htu : truthy u <;> simp [truthyOpt, htu, hn]
      | some a =>
        cases hta : truthy a with
        | true => simp [Option.getD, hta, truthyOpt]
        | false =>
          simp only [Option.getD, hta, Bool.false_eq_true, ite_false, Option.bind, truthyOpt]
          cases ha : dlookup (hd :: tl) "audio_url" with
          | none => simp [hn]
          | some u =>
            cases htu : truthy u <;> simp [truthyOpt, htu]

theorem tryTopB64_eq (event : Event) :
    tryTopB64 event = (specCandFile event).map SourceAction.decodeB64 := by
  unfold tryTopB64 specCandFile
  cases hf : dlookup event "file" with
  | none => rfl
  | some c =>
    simp only [Option.bind, truthyOpt]
    cases htc : truthy c <;> simp [htc]

theorem tryTopUrl_eq (event : Event) :
    tryTopUrl event = (specCandUrl event).map SourceAction.fetchUrl := by
  unfold tryTopUrl specCandUrl
  have hn : truthy Val.vnull = false := rfl
  simp only [pyOr]
  cases hf : dlookup event "file_url" with
  | none =>
    simp only [Option.getD, Option.bind, hn, Bool.false_eq_true, ite_false]
    cases ha : dlookup event "audio_url" with
    | none => simp [hn]
    | some u =>
      cases htu : truthy u <;> simp [truthyOpt, htu, hn]
  | some a =>
    cases hta : truthy a with
    | true => simp [Option.getD, hta, truthyOpt]
    | false =>
      simp only [Option.getD, hta, Bool.false_eq_true, ite_false, Option.bind, truthyOpt]
      cases ha : dlookup event "audio_url" with
      | none => simp [hn]
      | some u =>
        cases htu : truthy u <;> simp [truthyOpt, htu]

theorem extractAudioSource_eq_spec (event : Event) :
    extractAudioSource event =
      (match specResolve event with
       | some a => Except.ok a
       | none => Except.error (PyErr.noAudio (eventKeys event))) := by
  unfold extractAudioSource specResolve
  rw [tryFilesShape_eq, tryInputB64_eq, tryInputUrl_eq, tryTopB64_eq, tryTopUrl_eq]
  cases specCandFilesContent event with
  | some c => rfl
  | none =>
    cases specCandInputFile event with
    | some c => rfl
    | none =>
      cases specCandInputUrl event with
      | some u => rfl
      | none =>
        cases specCandFile event with
        | some c => rfl
        | none =>
          cases specCandUrl event with
          | some u => rfl
          | none => rfl

/-! ### Temporary-file accounting helpers -/

/-- A successful base64 write leaves exactly one more file behind. -/
theorem writeB64_ok_adds_file (c : Val) (fs : FS) (p : Nat)
    (h : (writeTempAudioFromBase64 c fs).1 = .ok p) :
    (writeTempAudioFromBase64 c fs).2.files.length = fs.files.length + 1 := by
  cases c with
  | vstr s =>
    simp only [writeTempAudioFromBase64] at h ⊢
    cases hd : b64decodeStr s with
    | none => rw [hd] at h; simp at h
    | some data => simp [mkstemp]
  | vnull => simp [writeTempAudioFromBase64] at h
  | vbool b => simp [writeTempAudioFromBase64] at h
  | vint n => simp [writeTempAudioFromBase64] at h
  | vlist xs => simp [writeTempAudioFromBase64] at h
  | vobj fos => simp [writeTempAudioFromBase64] at h

/-- A successful URL write leaves exactly one more file behind. -/
theorem writeUrl_ok_adds_file (net : Network) (u : Val) (fs : FS) (p : Nat)
    (h : (writeTempAudioFromUrl net u fs).1 = .ok p) :
    (writeTempAudioFromUrl net u fs).2.files.length = fs.files.length + 1 := by
  cases u with
  | vstr s =>
    simp only [writeTempAudioFromUrl] at h ⊢
    cases hd : net s with
    | error e => rw [hd] at h; simp at h
    | ok data => simp [mkstemp]
  | vnull => simp [writeTempAudioFromUrl] at h
  | vbool b => simp [writeTempAudioFromUrl] at h
  | vint n => simp [writeTempAudioFromUrl] at h
  | vlist xs => simp [writeTempAudioFromUrl] at h
  | vobj fos => simp [writeTempAudioFromUrl] at h

/-- Successful audio extraction creates exactly one temporary file. -/
theorem extract_ok_adds_file (net : Network) (event : Event) (fs : FS) (p : Nat)
    (h : (extractAudioToFile net event fs).1 = .ok p) :
    (extractAudioToFile net event fs).2.files.length = fs.files.length + 1 := by
  unfold extractAudioToFile at h ⊢
  cases hs : extractAudioSource event with
  | error e => rw [hs] at h; simp at h
  | ok a =>
    rw [hs] at h
    cases a with
    | decodeB64 c => exact writeB64_ok_adds_file c fs p h
    | fetchUrl u => exact writeUrl_ok_adds_file net u fs p h

/-! ### Claim theorems -/

/-- C4: for every payload (in particular any payload containing more
than one recognized audio source), resolution follows exactly the
documented priority order — `files.file.content`, then `input.file`,
then `input.file_url`/`input.audio_url`, then top-level `file`, then
top-level `file_url`/`audio_url`: the dispatch of
`_extract_audio_to_file` coincides with the specification's ordered
first-match resolver `specResolve`. -/
theorem resolution_priority_order (event : Event) :
    extractAudioSource event =
      (match specResolve event with
       | some a => Except.ok a
       | none => Except.error (PyErr.noAudio (eventKeys event))) :=
  extractAudioSource_eq_spec event

/-- C7: when no recognized source field is present-and-non-empty
(`specResolve` finds no candidate), extraction fails with the
"No audio provided" `ValueError` — not any unrelated exception — and
leaves the filesystem untouched; and every successful extraction
creates exactly one temporary file. -/
theorem no_source_input_error_one_temp_file (net : Network) (event : Event) (fs : FS) :
    (specResolve event = none →
      extractAudioToFile net event fs = (.error (.noAudio (eventKeys event)), fs)) ∧
    (∀ p : Nat, (extractAudioToFile net event fs).1 = .ok p →
      (extractAudioToFile net event fs).2.files.length = fs.files.length + 1) := by
  constructor
  · intro h
    unfold extractAudioToFile
    rw [extractAudioSource_eq_spec, h]
  · intro p hp
    exact extract_ok_adds_file net event fs p hp

/-- Witness for C7: a payload with no recognized field raises the
input `ValueError` and creates no file; a base64 `file` payload
creates exactly one. -/
theorem no_source_input_error_one_temp_file_witness :
    extractAudioToFile net0 [("x", Val.vint 1)] fs0 = (.error (.noAudio ["x"]), fs0) ∧
    (extractAudioToFile net0 [("file", Val.vstr "QUJD")] fs0).2.files.length =
      fs0.files.length + 1 :=
  ⟨(no_source_input_error_one_temp_file net0 [("x", Val.vint 1)] fs0).1 rfl,
   (no_source_input_error_one_temp_file net0 [("file", Val.vstr "QUJD")] fs0).2 0 rfl⟩

/-- C10: a higher-priority source field that is present but empty
(empty string or null), or a `files`/`input` value that is not a
mapping, is silently skipped and resolution falls through to the next
shape: an empty `input.file` with a non-empty `input.file_url`
resolves via the URL; an empty `files.file.content`, a non-mapping
`files`, or a non-mapping `input` fall through to the next non-empty
source. -/
theorem empty_fields_fall_through (u b fv iv : Val)
    (hu : truthy u = true) (hb : truthy b = true)
    (hfv : asObjFields fv = none) (hiv : asObjFields iv = none) :
    (extractAudioSource [("input", .vobj [("file", .vstr ""), ("file_url", u)])] =
      .ok (.fetchUrl u)) ∧
    (extractAudioSource [("input", .vobj [("file", .vnull), ("file_url", u)])] =
      .ok (.fetchUrl u)) ∧
    (extractAudioSource [("files", .vobj [("file", .vobj [("content", .vstr "")])]),
        ("input", .vobj [("file", b)])] = .ok (.decodeB64 b)) ∧
    (extractAudioSource [("files", fv), ("input", .vobj [("file", b)])] =
      .ok (.decodeB64 b)) ∧
    (extractAudioSource [("input", iv), ("file", b)] = .ok (.decodeB64 b)) := by
  have h0 : truthy (Val.vstr "") = false := rfl
  have hn : truthy Val.vnull = false := rfl
  have ho : ∀ xs : List (String × Val), asObjFields (Val.vobj xs) = some xs := fun _ => rfl
  have hao : asObjFields Val.vnull = none := rfl
  refine ⟨?_, ?_, ?_, ?_, ?_⟩ <;>
    rw [extractAudioSource_eq_spec] <;>
    simp [specResolve, specCandFilesContent, specCandInputFile, specCandInputUrl,
      specCandFile, specCandUrl, specInputObj, dlookup, truthyOpt,
      hu, hb, hfv, hiv, h0, hn, ho, hao]

/-- Witness for C10: empty `input.file` plus a URL resolves via the
URL; a non-mapping `input` falls through to the top-level `file`. -/
theorem empty_fields_fall_through_witness :
    extractAudioSource
        [("input", Val.vobj [("file", Val.vstr ""), ("file_url", Val.vstr "https://x/a.mp3")])] =
      .ok (.fetchUrl (Val.vstr "https://x/a.mp3")) ∧
    extractAudioSource [("input", Val.vstr "oops"), ("file", Val.vstr "QUJD")] =
      .ok (.decodeB64 (Val.vstr "QUJD")) := by
  have h := empty_fields_fall_through (Val.vstr "https://x/a.mp3") (Val.vstr "QUJD")
    (Val.vbool true) (Val.vstr "oops") rfl rfl rfl rfl
  exact ⟨h.1, h.2.2.2.2⟩

/-- C1 counterexample: on an empty payload, `run` does not return the
structured `status: error` mapping — the `ValueError` from audio
resolution propagates out of the handler uncaught (there is no
`try`/`except` in `run`). -/
theorem run_error_not_wrapped_cex :
    run cfg0 net0 loader0 [] fs0 = (.error (.noAudio []), fs0) := rfl

/-- C1 amended: `run` performs no exception handling — a failure in
audio-source resolution, and likewise a model-loading failure,
propagates out of the handler unchanged; no `status: error` response
is ever built. -/
theorem run_propagates_exceptions (cfg : Config) (net : Network)
    (loader : Except PyErr ModelFn) (event : Event) (fs : FS) :
    (∀ (e : PyErr) (fs' : FS), extractAudioToFile net event fs = (.error e, fs') →
      run cfg net loader event fs = (.error e, fs')) ∧
    (∀ (p : Nat) (fs' : FS) (e : PyErr),
      extractAudioToFile net event fs = (.ok p, fs') → loader = .error e →
      run cfg net loader event fs = (.error e, fs')) := by
  constructor
  · intro e fs' h
    unfold run
    rw [h]
  · intro p fs' e h hl
    unfold run
    rw [h]
    unfold runInner
    rw [hl]

theorem run_propagates_exceptions_witness :
    run cfg0 net0 loader0 [("x", Val.vint 1)] fs0 = (.error (.noAudio ["x"]), fs0) ∧
    run cfg0 net0 (.error (.ctorExc "boom")) [("file", Val.vstr "QUJD")] fs0 =
      (.error (.ctorExc "boom"), ⟨[(0, [65, 66, 67])], 1⟩) :=
  ⟨(run_propagates_exceptions cfg0 net0 loader0 [("x", Val.vint 1)] fs0).1
      (.noAudio ["x"]) fs0 rfl,
   (run_propagates_exceptions cfg0 net0 (.error (.ctorExc "boom"))
      [("file", Val.vstr "QUJD")] fs0).2 0 ⟨[(0, [65, 66, 67])], 1⟩ (.ctorExc "boom") rfl rfl⟩

/-- C2 counterexample: after a fully successful request starting from
an empty filesystem, the temporary audio file is still present — the
handler never deletes it, so "no temporary audio file remains after
handling completes" is false. -/
theorem temp_file_persists_cex :
    (run cfg0 net0 loader0 [("file", Val.vstr "QUJE")] fs0).1 =
      .ok (mkRunResponse [⟨.vint 0, .vint 1, .vstr "hello"⟩] ⟨.vstr "en", .vint 1⟩) ∧
    (run cfg0 net0 loader0 [("file", Val.vstr "QUJE")] fs0).2.files = [(0, [65, 66, 68])] :=
  ⟨rfl, rfl⟩

/-- C2 amended: `run` never deletes the temporary file — the final
filesystem is exactly the one extraction produced, and whenever
extraction succeeded, the one file it created remains on disk after
the handler returns (success and failure paths alike). -/
theorem run_keeps_temp_file (cfg : Config) (net : Network)
    (loader : Except PyErr ModelFn) (event : Event) (fs : FS) :
    (run cfg net loader event fs).2 = (extractAudioToFile net event fs).2 ∧
    (∀ p : Nat, (extractAudioToFile net event fs).1 = .ok p →
      (run cfg net loader event fs).2.files.length = fs.files.length + 1) := by
  have h2 : (run cfg net loader event fs).2 = (extractAudioToFile net event fs).2 := by
    unfold run
    cases hx : extractAudioToFile net event fs with
    | mk r fsx => cases r <;> rfl
  refine ⟨h2, ?_⟩
  intro p hp
  rw [h2]
  exact extract_ok_adds_file net event fs p hp

theorem run_keeps_temp_file_witness :
    (run cfg0 net0 loader0 [("file", Val.vstr "QUJD")] fs0).2.files.length =
      fs0.files.length + 1 :=
  (run_keeps_temp_file cfg0 net0 loader0 [("file", Val.vstr "QUJD")] fs0).2 0 rfl

theorem successShape_mkRunResponse (segments : List SegmentRec) (info : TranscribeInfo) :
    successShape (mkRunResponse segments info) = true := by
  show (segments.map segToVal).all segShape = true
  induction segments with
  | nil => rfl
  | cons s rest ih =>
    show (segShape (segToVal s) && (rest.map segToVal).all segShape) = true
    rw [show segShape (segToVal s) = true from rfl, Bool.true_and]
    exact ih

/-- C3 counterexample: a successful request returns the flat mapping
built by `run`; it has no `status` key and no `result` key, so the
claimed `status: ok` / `result` wrapper shape is false. -/
theorem response_lacks_status_cex :
    (run cfg0 net0 loader0 [("file", Val.vstr "QUJD")] fs0).1 =
      .ok (mkRunResponse [⟨.vint 0, .vint 1, .vstr "hello"⟩] ⟨.vstr "en", .vint 1⟩) ∧
    respLookup (run cfg0 net0 loader0 [("file", Val.vstr "QUJD")] fs0).1 "status" = none ∧
    respLookup (run cfg0 net0 loader0 [("file", Val.vstr "QUJD")] fs0).1 "result" = none :=
  ⟨rfl, rfl, rfl⟩

/-- C3 amended: every successful response is a flat mapping with
exactly the keys `language`, `language_probability` and `segments`
(the segments each carrying `start`, `end`, `text`) — there is no
`status`/`result` wrapper and no `task` or `duration` field. -/
theorem run_success_response_shape (cfg : Config) (net : Network)
    (loader : Except PyErr ModelFn) (event : Event) (fs : FS) (resp : Val) (fs' : FS)
    (h : run cfg net loader event fs = (.ok resp, fs')) :
    successShape resp = true := by
  unfold run at h
  cases hx : extractAudioToFile net event fs with
  | mk r fsx =>
    rw [hx] at h
    cases r with
    | error e => simp at h
    | ok p =>
      have hri : runInner cfg loader event p = .ok resp := congrArg Prod.fst h
      unfold runInner at hri
      cases loader with
      | error e => simp at hri
      | ok model =>
        cases hro : requestOptions cfg event with
        | error e => rw [hro] at hri; simp at hri
        | ok opts =>
          rw [hro] at hri
          have hri' :
              (match model p opts with
               | Except.error msg => Except.error (PyErr.transcribeExc msg)
               | Except.ok (segments, info) => Except.ok (mkRunResponse segments info)) =
                Except.ok resp := hri
          cases hm : model p opts with
          | error msg => rw [hm] at hri'; simp at hri'
          | ok pr =>
            rw [hm] at hri'
            cases pr with
            | mk segments info =>
              cases hri'
              exact successShape_mkRunResponse segments info

theorem run_success_response_shape_witness :
    successShape (mkRunResponse [⟨.vint 0, .vint 1, .vstr "hello"⟩] ⟨.vstr "en", .vint 1⟩) =
      true :=
  run_success_response_shape cfg0 net0 loader0 [("file", Val.vstr "QUJD")] fs0
    (mkRunResponse [⟨.vint 0, .vint 1, .vstr "hello"⟩] ⟨.vstr "en", .vint 1⟩)
    ⟨[(0, [65, 66, 67])], 1⟩ rfl

/-- C6 counterexample: two payloads that differ precisely in their
`vad_filter` (and `task`/`translate`) request fields produce the very
same transcription options — the call site passes only `beam_size`,
`language` and `condition_on_previous_text`, so the claim that the
options passed to the model include `vad_filter` and `task` is false. -/
theorem options_ignore_vad_and_task_cex :
    requestOptions cfg0
        [("input", Val.vobj [("vad_filter", Val.vbool true), ("task", Val.vstr "translate"),
          ("translate", Val.vbool true)])] =
      .ok ⟨5, .vnull, .vbool false⟩ ∧
    requestOptions cfg0 [("input", Val.vobj [("vad_filter", Val.vbool false)])] =
      .ok ⟨5, .vnull, .vbool false⟩ :=
  ⟨rfl, rfl⟩

/-- C6 amended: the options passed to the model are the
request-supplied `language`, `beam_size` and
`condition_on_previous_text` merged over the process-wide defaults
(empty language becoming null); `vad_filter` and `task` are not among
the options this handler passes. -/
theorem request_options_merge (cfg : Config) (bs : Int) (lang : String) (cv : Val) :
    requestOptions cfg
        [("input", Val.vobj [("language", Val.vstr lang), ("beam_size", Val.vint bs),
          ("condition_on_previous_text", cv)])] =
      .ok ⟨bs, if truthy (Val.vstr lang) then Val.vstr lang else Val.vnull, cv⟩ ∧
    requestOptions cfg [] =
      .ok ⟨cfg.defaultBeamSize,
        if truthy (Val.vstr cfg.defaultLanguage) then Val.vstr cfg.defaultLanguage
        else Val.vnull, .vbool false⟩ :=
  ⟨rfl, rfl⟩

/-- C9: when the request's `language` field is omitted or the empty
string and the process-wide default language is empty, the options
handed to the model carry no language constraint — the `language`
argument is null (auto-detect). -/
theorem empty_language_means_auto_detect (cfg : Config) (event : Event)
    (opts : TranscribeOpts) (hd : cfg.defaultLanguage = "")
    (hlang : languageOmittedOrEmpty event = true)
    (h : requestOptions cfg event = .ok opts) :
    opts.language = .vnull := by
  unfold languageOmittedOrEmpty at hlang
  unfold requestOptions at h
  cases hip : pyOr ((dlookup event "input").getD Val.vnull) (Val.vobj []) with
  | vobj fields =>
    rw [hip] at hlang h
    have hlang' : (match dlookup fields "language" with
        | none => true
        | some (.vstr s) => s == ""
        | some _ => false) = true := hlang
    have h' : (match pyInt ((dlookup fields "beam_size").getD (.vint cfg.defaultBeamSize)) with
        | Except.error e => (Except.error e : Except PyErr TranscribeOpts)
        | Except.ok beam_size =>
          Except.ok ⟨beam_size,
            (if truthy ((dlookup fields "language").getD (.vstr cfg.defaultLanguage)) = true
             then (dlookup fields "language").getD (.vstr cfg.defaultLanguage) else .vnull),
            (dlookup fields "condition_on_previous_text").getD (.vbool false)⟩) =
        Except.ok opts := h
    have htl : truthy ((dlookup fields "language").getD (Val.vstr cfg.defaultLanguage)) =
        false := by
      cases hl : dlookup fields "language" with
      | none =>
        rw [hd]
        rfl
      | some lv =>
        rw [hl] at hlang'
        cases lv with
        | vstr s =>
          have hs : s = "" := by simpa using hlang'
          subst hs
          rfl
        | vnull => simp at hlang'
        | vbool b => simp at hlang'
        | vint n => simp at hlang'
        | vlist xs => simp at hlang'
        | vobj fos => simp at hlang'
    rw [htl] at h'
    simp only [Bool.false_eq_true, if_false] at h'
    cases hpi : pyInt ((dlookup fields "beam_size").getD (.vint cfg.defaultBeamSize)) with
    | error e => rw [hpi] at h'; simp at h'
    | ok beam_size =>
      rw [hpi] at h'
      cases h'
      rfl
  | vnull => rw [hip] at hlang; simp at hlang
  | vbool b => rw [hip] at hlang; simp at hlang
  | vint n => rw [hip] at hlang; simp at hlang
  | vstr s => rw [hip] at hlang; simp at hlang
  | vlist xs => rw [hip] at hlang; simp at hlang

/-- Witness for C9: with the default configuration (empty default
language) and an explicit empty `language` field, the computed
options carry a null language. -/
theorem empty_language_means_auto_detect_witness :
    TranscribeOpts.language ⟨5, .vnull, .vbool false⟩ = .vnull :=
  empty_language_means_auto_detect cfg0 [("input", Val.vobj [("language", Val.vstr "")])]
    ⟨5, .vnull, .vbool false⟩ rfl rfl rfl

/-- C5 counterexample: a constructor that rejects the configured
`float16` precision but would succeed at any fallback precision still
makes `load_model` fail after a single construction attempt — there is
no retry at a fallback precision; and a non-device failure whose
message mentions "local" is re-raised as the cache `RuntimeError`,
i.e. it is reinterpreted as a caching problem rather than propagating
unchanged. -/
theorem no_precision_fallback_cex :
    load_model cfg0 ctorPrec ⟨none, 0⟩ =
      (.error (.ctorExc "float16 compute type is not supported"), ⟨none, 1⟩) ∧
    ctorPrec "float32" = .ok 1 ∧ ctorPrec "int8" = .ok 1 ∧
    handleCtorExc true "/app/models" "model weights not found locally" =
      .cacheRuntimeError "/app/models" :=
  ⟨rfl, rfl, rfl, rfl⟩

/-- C5 amended: on a cold start the outcome of `load_model` is
determined entirely by the single construction attempt at the
configured precision (no fallback retry); failures whose message
mentions cuda/gpu/device propagate unchanged, and with the
require-cached flag off every failure propagates unchanged (only
"local"-mentioning messages under require-cached are rewrapped as the
cache error). -/
theorem load_model_failure_dispatch {α : Type} (cfg : Config) (ctor ctor' : Ctor α)
    (st : LoaderState α) (msg : String) :
    (st.cached = none → ctor cfg.defaultComputeType = ctor' cfg.defaultComputeType →
      load_model cfg ctor st = load_model cfg ctor' st) ∧
    (st.cached = none → ctor cfg.defaultComputeType = .error msg →
      (strContains msg "cuda" || strContains msg "gpu" || strContains msg "device") = true →
      (load_model cfg ctor st).1 = .error (.ctorExc msg)) ∧
    (st.cached = none → ctor cfg.defaultComputeType = .error msg →
      cfg.requireCached = false →
      (load_model cfg ctor st).1 = .error (.ctorExc msg)) := by
  refine ⟨?_, ?_, ?_⟩
  · intro hc he
    unfold load_model
    rw [hc, he]
  · intro hc he hdev
    unfold load_model
    rw [hc, he]
    simp [handleCtorExc, hdev]
  · intro hc he hrc
    unfold load_model
    rw [hc, he]
    simp only [handleCtorExc, hrc]
    split <;> rfl

/-- Witness for C5 amended: a CUDA failure propagates unchanged, and
two constructors agreeing at the configured precision (but differing
elsewhere) give identical loader outcomes. -/
theorem load_model_failure_dispatch_witness :
    (load_model cfg0 ctorCuda (⟨none, 0⟩ : LoaderState Nat)).1 =
      .error (.ctorExc "CUDA driver initialization failed") ∧
    load_model cfg0 ctorA ⟨none, 3⟩ = load_model cfg0 ctorA2 ⟨none, 3⟩ :=
  ⟨(load_model_failure_dispatch cfg0 ctorCuda ctorCuda ⟨none, 0⟩
      "CUDA driver initialization failed").2.1 rfl rfl rfl,
   (load_model_failure_dispatch cfg0 ctorA ctorA2 ⟨none, 3⟩ "x").1 rfl rfl⟩

/-- Once `_model` is populated, further `load_model()` calls return
the cached instance and never touch the constructor. -/
theorem loadModelCalls_cached {α : Type} (cfg : Config) (ctor : Ctor α) (n : Nat)
    (m : α) (c : Nat) :
    loadModelCalls cfg ctor n ⟨some m, c⟩ = (List.replicate n (.ok m), ⟨some m, c⟩) := by
  induction n with
  | zero => rfl
  | succ k ih =>
    simp only [loadModelCalls, load_model, ih]
    rfl

/-- C8: within one process, over any number `n ≥ 1` of requests, the
model constructor runs exactly once (on the first call) and every
call returns that same cached instance. -/
theorem load_model_memoized {α : Type} (cfg : Config) (ctor : Ctor α) (m : α) (n : Nat)
    (hc : ctor cfg.defaultComputeType = .ok m) (hn : 1 ≤ n) :
    loadModelCalls cfg ctor n ⟨none, 0⟩ = (List.replicate n (.ok m), ⟨some m, 1⟩) := by
  cases n with
  | zero => exact absurd hn (by simp)
  | succ k =>
    simp only [loadModelCalls, load_model, hc]
    rw [loadModelCalls_cached]
    rfl

/-- Witness for C8: three calls with an always-succeeding constructor
yield the same instance three times with one construction. -/
theorem load_model_memoized_witness :
    loadModelCalls cfg0 ctorOk7 3 ⟨none, 0⟩ = (List.replicate 3 (.ok 7), ⟨some 7, 1⟩) :=
  load_model_memoized cfg0 ctorOk7 7 3 rfl (by decide)

end FastServer
